import Mathlib

/-!
Shallow embedding of `src/scraper.py` (the extraction orchestrator of the
nfabyshimon repository) and proofs of the specified properties of
`fetch_multiple_data`, `fetch_data` and `dismiss_popups`.

Modelling conventions:
* Interaction with the browser is abstracted by a `Scenario`: a deterministic
  environment saying which of the steps of the Python code raises an exception
  and, on success, which text each locator extracts.  Exceptions are modelled
  by `Except String`, the string being the Python `str(e)` of the exception.
* Side effects relevant to the claims (driver acquisition, login, entity
  search, per-kind extraction, `driver.quit`) are recorded in an event trace;
  each event is appended when the corresponding call is made, whether or not
  the call then raises.
* The Python result dict is an association list with Python dict semantics:
  `dinsert` overwrites in place, `dictLookup` finds the (unique) binding.
-/

namespace Scraper

/-- Abstract stand-in for the four literal XPath strings stored in the
`XPATHS` table of scraper.py (lines 30 to 35).  The claims depend only on
which keys are registered and on the identity of the locator bound to each
key, never on the XPath text itself. -/
inductive Locator where
  | overviewTab
  | merPair
  | perfPair
  | strategyBody
deriving DecidableEq, Repr

/-- The `XPATHS` dictionary of scraper.py (lines 30 to 35): string keys
`overview_tab`, `mer`, `performance`, `fund_profile`, each bound to one
locator. -/
def XPATHS : List (String × Locator) :=
  [("overview_tab", Locator.overviewTab),
   ("mer", Locator.merPair),
   ("performance", Locator.perfPair),
   ("fund_profile", Locator.strategyBody)]

/-- Python dict lookup (`d[k]` or `d.get(k)`), returning `none` when the key
is absent (a `KeyError` in the bracket form). -/
def dictLookup {α : Type} : List (String × α) → String → Option α
  | [], _ => none
  | (k, v) :: rest, k' => if k = k' then some v else dictLookup rest k'

/-- Python dict assignment `d[k] = v`: overwrites an existing binding in
place, otherwise appends the new binding at the end. -/
def dinsert (k : String) (v : String) : List (String × String) → List (String × String)
  | [] => [(k, v)]
  | (k', v') :: rest =>
    if k' = k then (k, v) :: rest else (k', v') :: dinsert k v rest

/-- The key list of a Python dict. -/
def dictKeys {α : Type} (d : List (String × α)) : List String :=
  d.map Prod.fst

/-- One deterministic environment for a run of the scraper: which step of the
Python code raises, with what message, and what text each locator yields on
success.  The per-locator fields make each extraction outcome a function of
the locator alone, mirroring that the page content does not depend on the
order in which fields are read. -/
structure Scenario where
  /-- `get_driver` (lines 37 to 99) raises instead of returning a driver. -/
  driverFails : Bool
  driverErr : String
  /-- `login` (lines 132 to 185) raises; its internal handler re-raises. -/
  loginFails : Bool
  loginErr : String
  /-- the entity-search block of `fetch_multiple_data` (lines 230 to 256)
  raises, e.g. no suggestion appears within the timeout. -/
  locateFails : Bool
  locateErr : String
  /-- inside `click_and_extract`, the Overview tab click or wait raises. -/
  overviewFails : Bool
  overviewErr : String
  /-- the wait for the value element of the given locator times out. -/
  extractFails : Locator → Bool
  extractErr : Locator → String
  /-- the stripped text of the value element of the given locator. -/
  extractVal : Locator → String
  /-- `driver.quit` itself raises inside the finally block. -/
  quitFails : Bool
  quitErr : String

/-- Events recorded by the model, in call order. -/
inductive Event where
  /-- `get_driver` returned a live driver. -/
  | acquire
  /-- `login(driver)` was invoked. -/
  | login
  /-- the entity-search block was entered. -/
  | locate
  /-- `click_and_extract` was invoked for the given requested kind. -/
  | extract (kind : String)
  /-- `driver.quit()` was invoked. -/
  | quit
deriving DecidableEq, Repr

/-- Python `try: ... except: pass` around a side-effecting call: any raised
exception is swallowed. -/
def swallow (r : Except String Unit) : Except String Unit :=
  match r with
  | Except.error _ => Except.ok ()
  | Except.ok _ => Except.ok ()

/-- `get_driver` (scraper.py lines 37 to 99): probes binaries and drivers
and either returns a usable driver or raises; the handle itself carries no
data the claims need, so it is `Unit`. -/
def get_driver (env : Scenario) : Except String Unit :=
  if env.driverFails then Except.error env.driverErr else Except.ok ()

/-- `login` (scraper.py lines 132 to 185): drives the sign-in form; its
try/except prints and re-raises, so semantically the step either completes
or raises the underlying error unchanged. -/
def login (env : Scenario) : Except String Unit :=
  if env.loginFails then Except.error env.loginErr else Except.ok ()

/-- The entity-search block of `fetch_multiple_data` (scraper.py lines 230
to 256): activate search, type the fund name, click the first suggestion,
wait for the Overview tab; any timeout raises. -/
def locateEntity (env : Scenario) (fund : String) : Except String Unit :=
  if env.locateFails then Except.error env.locateErr else Except.ok ()

/-- `click_and_extract` (scraper.py lines 187 to 208): dismisses popups
(never raises), clicks the Overview tab, waits for the element of the given
locator and returns its stripped text; a timeout at either wait raises,
which the internal handler re-raises. -/
def click_and_extract (env : Scenario) (xpath : Locator) : Except String String :=
  if env.overviewFails then Except.error env.overviewErr
  else if env.extractFails xpath then Except.error (env.extractErr xpath)
  else Except.ok (env.extractVal xpath)

/-- Rendering of the Python `str(KeyError(k))` raised by `XPATHS[k]` for an
unregistered kind, as interpolated into the per-kind error entry (Python
renders the key in quotes; the quoting is abstracted away). -/
def keyErrorText (k : String) : String :=
  "KeyError " ++ k

/-- The per-kind extraction loop of `fetch_multiple_data` (scraper.py lines
259 to 268): for each requested kind in caller order, look up its XPath
(`XPATHS[data_point]`, a `KeyError` when unregistered) and run
`click_and_extract`, all inside a per-kind try/except that turns any failure
into an error entry for that kind only.  Returns the updated results dict
and the extraction events. -/
def extractLoop (env : Scenario) :
    List String → List (String × String) → List (String × String) × List Event
  | [], results => (results, [])
  | p :: rest, results =>
    match dictLookup XPATHS p with
    | none =>
      let results := dinsert p ("Error fetching " ++ p ++ ": " ++ keyErrorText p) results
      extractLoop env rest results
    | some xp =>
      let results :=
        match click_and_extract env xp with
        | Except.ok t => dinsert p t results
        | Except.error e => dinsert p ("Error fetching " ++ p ++ ": " ++ e) results
      let next := extractLoop env rest results
      (next.fst, Event.extract p :: next.snd)

/-- The try-block body of `fetch_multiple_data` (scraper.py lines 221 to
270): create the driver, log in, locate the fund, then run the extraction
loop; the first raising step aborts the body with its error. -/
def fetchBody (env : Scenario) (fund : String) (pts : List String) :
    Except String (List (String × String)) × List Event :=
  match get_driver env with
  | Except.error e => (Except.error e, [])
  | Except.ok _ =>
    match login env with
    | Except.error e => (Except.error e, [Event.acquire, Event.login])
    | Except.ok _ =>
      match locateEntity env fund with
      | Except.error e => (Except.error e, [Event.acquire, Event.login, Event.locate])
      | Except.ok _ =>
        let (r, evs) := extractLoop env pts []
        (Except.ok r, Event.acquire :: Event.login :: Event.locate :: evs)

/-- The except-handler of `fetch_multiple_data` (scraper.py lines 272 to
278): bind every requested kind to the same formatted error text over
whatever the results dict already held (always empty when the handler runs,
since every later failure point is inside the per-kind try). -/
def handlerResult (e : String) :
    List String → List (String × String) → List (String × String)
  | [], results => results
  | p :: rest, results =>
    handlerResult e rest (dinsert p ("Error during fetch process: " ++ e) results)

/-- The underlying `driver.quit()` call, which may itself raise. -/
def driverQuit (env : Scenario) : Except String Unit :=
  if env.quitFails then Except.error env.quitErr else Except.ok ()

/-- The finally block of `fetch_multiple_data` (scraper.py lines 279 to
286): when a driver was created, invoke `driver.quit()` with its own
exceptions swallowed; when `get_driver` raised, `driver` is still `None`
and nothing is invoked. -/
def finallyQuit (env : Scenario) : Except String Unit × List Event :=
  if env.driverFails then (Except.ok (), [])
  else (swallow (driverQuit env), [Event.quit])

/-- `fetch_multiple_data` (scraper.py lines 215 to 286): the try body, the
except-handler, and the finally block, composed with Python semantics (a
raising finally would replace the outcome; here it never raises).  Returns
the outcome the caller sees (`Except.error` would be a raised exception)
together with the full event trace. -/
def fetch_multiple_data (env : Scenario) (fund : String) (pts : List String) :
    Except String (List (String × String)) × List Event :=
  let bodyRun := fetchBody env fund pts
  let handled :=
    match bodyRun.fst with
    | Except.ok r => Except.ok r
    | Except.error e => Except.ok (handlerResult e pts [])
  let finRun := finallyQuit env
  let outcome :=
    match finRun.fst with
    | Except.error e => Except.error e
    | Except.ok _ => handled
  (outcome, bodyRun.snd ++ finRun.snd)

/-- `fetch_data` (scraper.py lines 210 to 213): single-kind wrapper over
`fetch_multiple_data`, reading the kind out of the batch result with
`results.get(data_point, "Error: Data not found")`. -/
def fetch_data (env : Scenario) (fund : String) (data_point : String) :
    Except String String :=
  match (fetch_multiple_data env fund [data_point]).fst with
  | Except.ok results =>
    Except.ok ((dictLookup results data_point).getD "Error: Data not found")
  | Except.error e => Except.error e

/-- The mapping `fetch_multiple_data` hands back to its caller (it always
returns one; the error arm is unreachable). -/
def fetchResultDict (env : Scenario) (fund : String) (pts : List String) :
    List (String × String) :=
  match (fetch_multiple_data env fund pts).fst with
  | Except.ok r => r
  | Except.error _ => []

/-- The value the extraction loop records for a kind: the error entry of the
`KeyError` for an unregistered kind, otherwise the outcome of
`click_and_extract` on that kind own locator. -/
def loopValue (env : Scenario) (k : String) : String :=
  match dictLookup XPATHS k with
  | none => "Error fetching " ++ k ++ ": " ++ keyErrorText k
  | some xp =>
    match click_and_extract env xp with
    | Except.ok t => t
    | Except.error e => "Error fetching " ++ k ++ ": " ++ e

/-- The value `fetch_multiple_data` records for one requested kind, as a
function of the scenario and that kind alone. -/
def perKindValue (env : Scenario) (k : String) : String :=
  if env.driverFails then "Error during fetch process: " ++ env.driverErr
  else if env.loginFails then "Error during fetch process: " ++ env.loginErr
  else if env.locateFails then "Error during fetch process: " ++ env.locateErr
  else loopValue env k

/-- The extraction events produced for a request list: one event per
occurrence of a registered kind, in caller order (an unregistered kind
raises its `KeyError` before `click_and_extract` is ever invoked). -/
def extractEvents : List String → List Event
  | [] => []
  | p :: rest =>
    match dictLookup XPATHS p with
    | none => extractEvents rest
    | some _ => Event.extract p :: extractEvents rest

/-- Test for the extraction event. -/
def isExtract : Event → Bool
  | Event.extract _ => true
  | _ => false

/-- Test for the quit event. -/
def isQuit : Event → Bool
  | Event.quit => true
  | _ => false

/-- Test for the acquire event. -/
def isAcquire : Event → Bool
  | Event.acquire => true
  | _ => false

/-- A page state as seen by the removal script of `dismiss_popups`: the
element groups the script targets, plus the untouched remainder of the DOM.
`fixedBlockers` lists the z-index of each fixed or absolute positioned div
(0 when none is set, which the script treats as not removable). -/
structure Page where
  subNotification : Bool
  backdrops : Nat
  modals : Nat
  fixedBlockers : List Nat
  content : String
deriving DecidableEq, Repr

/-- The DOM mutation performed by the removal script inside `dismiss_popups`
(scraper.py lines 105 to 128): remove the subscription notification, all
backdrops and overlays, all modals and dialogs, and every fixed or absolute
positioned div whose z-index exceeds 1000; everything else is untouched. -/
def popupScript (p : Page) : Page :=
  { subNotification := false
    backdrops := 0
    modals := 0
    fixedBlockers := p.fixedBlockers.filter fun z => decide (z ≤ 1000)
    content := p.content }

/-- `dismiss_popups` (scraper.py lines 101 to 130): run the removal script
inside a bare try/except; when `execute_script` raises, the page is left as
it was and the exception is swallowed. -/
def dismiss_popups (scriptFails : Bool) (p : Page) : Except String Unit × Page :=
  let run :=
    if scriptFails then (Except.error "WebDriverException", p)
    else (Except.ok (), popupScript p)
  (swallow run.fst, run.snd)

/-- A page on which none of the removal selectors of the script matches
anything: no subscription notification, no backdrop or overlay, no modal or
dialog, and no fixed or absolute positioned div with z-index above 1000. -/
def overlayFree (p : Page) : Prop :=
  p.subNotification = false ∧ p.backdrops = 0 ∧ p.modals = 0 ∧
    ∀ z ∈ p.fixedBlockers, z ≤ 1000

/-! Helper lemmas about the dict operations, the extraction loop, the
except-handler and the assembled orchestrator. -/

theorem swallow_ok (r : Except String Unit) : swallow r = Except.ok () := by
  cases r <;> rfl

theorem dictLookup_dinsert_self (k v : String) (d : List (String × String)) :
    dictLookup (dinsert k v d) k = some v := by
  induction d with
  | nil => simp [dinsert, dictLookup]
  | cons hd tl ih =>
    obtain ⟨k', v'⟩ := hd
    by_cases h : k' = k
    · simp [dinsert, h, dictLookup]
    · simp [dinsert, h, dictLookup, ih]

theorem dictLookup_dinsert_ne (k v q : String) (d : List (String × String))
    (h : q ≠ k) :
    dictLookup (dinsert k v d) q = dictLookup d q := by
  have h' : k ≠ q := Ne.symm h
  induction d with
  | nil => simp [dinsert, dictLookup, h']
  | cons hd tl ih =>
    obtain ⟨k', v'⟩ := hd
    by_cases hk : k' = k
    · subst hk
      simp [dinsert, dictLookup, h']
    · simp [dinsert, hk, dictLookup, ih]

theorem mem_dictKeys_iff {α : Type} (d : List (String × α)) (k : String) :
    k ∈ dictKeys d ↔ (dictLookup d k).isSome := by
  induction d with
  | nil => simp [dictKeys, dictLookup]
  | cons hd tl ih =>
    obtain ⟨k', v'⟩ := hd
    by_cases h : k' = k
    · subst h
      simp [dictKeys, dictLookup]
    · have h' : ¬ k = k' := fun hh => h hh.symm
      show k ∈ k' :: dictKeys tl ↔ _
      rw [List.mem_cons]
      simp only [dictLookup, if_neg h]
      simp [h', ih]

theorem extractLoop_fst_lookup (env : Scenario) (pts : List String)
    (acc : List (String × String)) (k : String) :
    dictLookup (extractLoop env pts acc).fst k =
      if k ∈ pts then some (loopValue env k) else dictLookup acc k := by
  induction pts generalizing acc with
  | nil => simp [extractLoop]
  | cons p rest ih =>
    have step : ∀ v : String, v = loopValue env p →
        dictLookup (extractLoop env rest (dinsert p v acc)).fst k =
          if k ∈ p :: rest then some (loopValue env k) else dictLookup acc k := by
      intro v hv
      rw [ih]
      by_cases hk : k ∈ rest
      · simp [hk]
      · by_cases hkp : k = p
        · subst hkp
          simp [hk, dictLookup_dinsert_self, hv]
        · simp [hk, hkp, dictLookup_dinsert_ne _ _ _ _ hkp]
    cases hx : dictLookup XPATHS p with
    | none =>
      simp only [extractLoop, hx]
      exact step _ (by simp [loopValue, hx])
    | some xp =>
      cases hc : click_and_extract env xp with
      | ok t =>
        simp only [extractLoop, hx, hc]
        exact step _ (by simp [loopValue, hx, hc])
      | error e =>
        simp only [extractLoop, hx, hc]
        exact step _ (by simp [loopValue, hx, hc])

theorem extractLoop_snd (env : Scenario) (pts : List String)
    (acc : List (String × String)) :
    (extractLoop env pts acc).snd = extractEvents pts := by
  induction pts generalizing acc with
  | nil => simp [extractLoop, extractEvents]
  | cons p rest ih =>
    cases hx : dictLookup XPATHS p with
    | none => simp [extractLoop, hx, extractEvents, ih]
    | some xp =>
      cases hc : click_and_extract env xp <;>
        simp [extractLoop, hx, hc, extractEvents, ih]

theorem handlerResult_lookup (e : String) (pts : List String)
    (acc : List (String × String)) (k : String) :
    dictLookup (handlerResult e pts acc) k =
      if k ∈ pts then some ("Error during fetch process: " ++ e)
      else dictLookup acc k := by
  induction pts generalizing acc with
  | nil => simp [handlerResult]
  | cons p rest ih =>
    simp only [handlerResult]
    rw [ih]
    by_cases hk : k ∈ rest
    · simp [hk]
    · by_cases hkp : k = p
      · subst hkp
        simp [hk, dictLookup_dinsert_self]
      · simp [hk, hkp, dictLookup_dinsert_ne _ _ _ _ hkp]

theorem finallyQuit_fst (env : Scenario) : (finallyQuit env).fst = Except.ok () := by
  unfold finallyQuit
  cases env.driverFails <;> simp [swallow_ok]

theorem fetch_fst_ok (env : Scenario) (fund : String) (pts : List String) :
    (fetch_multiple_data env fund pts).fst = Except.ok (fetchResultDict env fund pts) := by
  unfold fetchResultDict fetch_multiple_data
  cases hb : (fetchBody env fund pts).fst <;> simp [hb, finallyQuit_fst]

theorem fetchResultDict_lookup (env : Scenario) (fund : String) (pts : List String)
    (k : String) :
    dictLookup (fetchResultDict env fund pts) k =
      if k ∈ pts then some (perKindValue env k) else none := by
  cases hd : env.driverFails with
  | true =>
    simp [fetchResultDict, fetch_multiple_data, fetchBody, get_driver, finallyQuit, hd,
      handlerResult_lookup, perKindValue, dictLookup]
  | false =>
    cases hl : env.loginFails with
    | true =>
      simp [fetchResultDict, fetch_multiple_data, fetchBody, get_driver, login, finallyQuit,
        swallow_ok, hd, hl, handlerResult_lookup, perKindValue, dictLookup]
    | false =>
      cases hc : env.locateFails with
      | true =>
        simp [fetchResultDict, fetch_multiple_data, fetchBody, get_driver, login, locateEntity,
          finallyQuit, swallow_ok, hd, hl, hc, handlerResult_lookup, perKindValue, dictLookup]
      | false =>
        simp [fetchResultDict, fetch_multiple_data, fetchBody, get_driver, login, locateEntity,
          finallyQuit, swallow_ok, hd, hl, hc, extractLoop_fst_lookup, perKindValue, dictLookup]

theorem fetch_trace (env : Scenario) (fund : String) (pts : List String) :
    (fetch_multiple_data env fund pts).snd =
      if env.driverFails then []
      else if env.loginFails then [Event.acquire, Event.login, Event.quit]
      else if env.locateFails then
        [Event.acquire, Event.login, Event.locate, Event.quit]
      else Event.acquire :: Event.login :: Event.locate ::
        (extractEvents pts ++ [Event.quit]) := by
  cases hd : env.driverFails with
  | true =>
    simp [fetch_multiple_data, fetchBody, get_driver, finallyQuit, hd]
  | false =>
    cases hl : env.loginFails with
    | true =>
      simp [fetch_multiple_data, fetchBody, get_driver, login, finallyQuit, hd, hl]
    | false =>
      cases hc : env.locateFails with
      | true =>
        simp [fetch_multiple_data, fetchBody, get_driver, login, locateEntity, finallyQuit,
          hd, hl, hc]
      | false =>
        simp [fetch_multiple_data, fetchBody, get_driver, login, locateEntity, finallyQuit,
          hd, hl, hc, extractLoop_snd]

theorem extractEvents_countP_isQuit (pts : List String) :
    (extractEvents pts).countP isQuit = 0 := by
  induction pts with
  | nil => rfl
  | cons p rest ih =>
    cases hx : dictLookup XPATHS p with
    | none =>
      simp only [extractEvents, hx]
      exact ih
    | some xp =>
      simp only [extractEvents, hx]
      rw [List.countP_cons]
      simp [isQuit, ih]

theorem extractEvents_countP_isAcquire (pts : List String) :
    (extractEvents pts).countP isAcquire = 0 := by
  induction pts with
  | nil => rfl
  | cons p rest ih =>
    cases hx : dictLookup XPATHS p with
    | none =>
      simp only [extractEvents, hx]
      exact ih
    | some xp =>
      simp only [extractEvents, hx]
      rw [List.countP_cons]
      simp [isAcquire, ih]

/-! Concrete scenarios and pages used by the witnesses and the
counterexample. -/

/-- A scenario in which every step succeeds; the extracted values follow the
end-to-end scenario of the spec. -/
def envAllOk : Scenario :=
  { driverFails := false
    driverErr := ""
    loginFails := false
    loginErr := ""
    locateFails := false
    locateErr := ""
    overviewFails := false
    overviewErr := ""
    extractFails := fun _ => false
    extractErr := fun _ => ""
    extractVal := fun xp =>
      match xp with
      | Locator.overviewTab => "Overview"
      | Locator.merPair => "1.23%"
      | Locator.perfPair => "8.5%"
      | Locator.strategyBody => "Invests in growth assets"
    quitFails := false
    quitErr := "" }

/-- A scenario in which get_driver raises. -/
def envDriverFail : Scenario :=
  { envAllOk with driverFails := true, driverErr := "no compatible chromedriver" }

/-- A scenario in which login raises after the driver was created. -/
def envLoginFail : Scenario :=
  { envAllOk with loginFails := true, loginErr := "TimeoutException" }

/-- A scenario in which the session is fine but the value element of the
cost-ratio locator never appears, while every other locator succeeds. -/
def envExtractMerFails : Scenario :=
  { envAllOk with
    extractFails := fun xp =>
      match xp with
      | Locator.merPair => true
      | _ => false
    extractErr := fun _ => "TimeoutException waiting for value element" }

/-- A page with no overlay: nothing the removal script targets is present
(the two fixed divs have z-index at most 1000). -/
def page0 : Page :=
  { subNotification := false
    backdrops := 0
    modals := 0
    fixedBlockers := [10, 999]
    content := "fund overview page" }

theorem popupScript_idem (p : Page) : popupScript (popupScript p) = popupScript p := by
  simp [popupScript, List.filter_filter, Bool.and_self]

theorem popupScript_overlayFree (p : Page) (h : overlayFree p) : popupScript p = p := by
  obtain ⟨h1, h2, h3, h4⟩ := h
  have hf : p.fixedBlockers.filter (fun z => decide (z ≤ 1000)) = p.fixedBlockers := by
    rw [List.filter_eq_self]
    intro a ha
    simpa using h4 a ha
  cases p with
  | mk s b m fb c =>
    simp only [popupScript, Page.mk.injEq]
    exact ⟨h1.symm, h2.symm, h3.symm, hf, by trivial⟩

/-- The extraction loop does not read the quitFails field. -/
theorem extractLoop_quitFails_irrel (env : Scenario) (b : Bool) (pts : List String)
    (acc : List (String × String)) :
    extractLoop { env with quitFails := b } pts acc = extractLoop env pts acc := by
  induction pts generalizing acc with
  | nil => rfl
  | cons p rest ih =>
    cases hx : dictLookup XPATHS p with
    | none =>
      simp only [extractLoop, hx]
      exact ih _
    | some xp =>
      simp only [extractLoop, hx]
      rw [ih _]
      rfl

/-- The try-block body does not read the quitFails field. -/
theorem fetchBody_quitFails_irrel (env : Scenario) (b : Bool) (fund : String)
    (pts : List String) :
    fetchBody { env with quitFails := b } fund pts = fetchBody env fund pts := by
  unfold fetchBody
  rw [extractLoop_quitFails_irrel env b pts []]
  rfl

/-- The returned mapping does not read the quitFails field. -/
theorem fetchResultDict_quitFails_irrel (env : Scenario) (b : Bool) (fund : String)
    (pts : List String) :
    fetchResultDict { env with quitFails := b } fund pts =
      fetchResultDict env fund pts := by
  simp only [fetchResultDict, fetch_multiple_data, finallyQuit_fst,
    fetchBody_quitFails_irrel env b fund pts]

/-! The claims. -/

/-- C1: for every combination of step failures (scenario), every fund name
and every requested list of kinds, the mapping returned by
fetch_multiple_data has key set exactly the set of requested kinds: a key
occurs in the result iff it was requested. -/
theorem C1_result_keys_exact (env : Scenario) (fund : String) (pts : List String)
    (k : String) :
    k ∈ dictKeys (fetchResultDict env fund pts) ↔ k ∈ pts := by
  rw [mem_dictKeys_iff, fetchResultDict_lookup]
  by_cases hk : k ∈ pts <;> simp [hk]

/-- C2 counterexample: in a scenario in which get_driver raises, driver is
still None when the finally block runs, so driver.quit is invoked zero
times, not exactly once as the claim states for every exit path. -/
theorem C2_quit_not_invoked_on_acquisition_failure :
    (fetch_multiple_data envDriverFail "Acme Growth Fund" ["mer"]).snd.countP isQuit = 0 ∧
      ¬ (fetch_multiple_data envDriverFail "Acme Growth Fund"
          ["mer"]).snd.countP isQuit = 1 := by
  decide

/-- C2 amended: driver.quit is invoked exactly once on every exit path on
which get_driver returned a driver, and never when acquisition failed (so
acquire-count equals release-count in every scenario), and a quit that
itself raises never changes the outcome the caller sees. -/
theorem C2_release_balanced (env : Scenario) (fund : String) (pts : List String) :
    (fetch_multiple_data env fund pts).snd.countP isQuit =
        (if env.driverFails then 0 else 1) ∧
      (fetch_multiple_data env fund pts).snd.countP isAcquire =
        (fetch_multiple_data env fund pts).snd.countP isQuit ∧
      (fetch_multiple_data { env with quitFails := true } fund pts).fst =
        (fetch_multiple_data { env with quitFails := false } fund pts).fst := by
  refine ⟨?_, ?_, ?_⟩
  · rw [fetch_trace]
    cases hd : env.driverFails with
    | true => rfl
    | false =>
      cases hl : env.loginFails with
      | true => rfl
      | false =>
        cases hc : env.locateFails with
        | true => rfl
        | false =>
          simp [List.countP_cons, List.countP_append, extractEvents_countP_isQuit, isQuit]
  · rw [fetch_trace]
    cases hd : env.driverFails with
    | true => rfl
    | false =>
      cases hl : env.loginFails with
      | true => rfl
      | false =>
        cases hc : env.locateFails with
        | true => rfl
        | false =>
          simp [List.countP_cons, List.countP_append, extractEvents_countP_isQuit,
            extractEvents_countP_isAcquire, isQuit, isAcquire]
  · rw [fetch_fst_ok, fetch_fst_ok, fetchResultDict_quitFails_irrel env true fund pts,
      fetchResultDict_quitFails_irrel env false fund pts]

/-- C3: fetch_multiple_data never lets an error escape: in every scenario it
returns a mapping (an escaped exception would be an error outcome), the
entry of every requested kind is the recorded per-kind text, and that text
does not depend on whether the teardown in the finally block raises. -/
theorem C3_no_exception_escapes (env : Scenario) (fund : String) (pts : List String) :
    (fetch_multiple_data env fund pts).fst = Except.ok (fetchResultDict env fund pts) ∧
      ∀ k, dictLookup (fetchResultDict env fund pts) k =
          (if k ∈ pts then some (perKindValue env k) else none) ∧
        perKindValue { env with quitFails := true } k = perKindValue env k :=
  ⟨fetch_fst_ok env fund pts, fun k => ⟨fetchResultDict_lookup env fund pts k, rfl⟩⟩

/-- C4: if authentication fails, or authentication succeeds and entity
location fails, every requested kind is bound to the same single error text
for that failure and click_and_extract is never invoked. -/
theorem C4_early_failure_uniform (env : Scenario) (fund : String) (pts : List String)
    (hd : env.driverFails = false)
    (h : env.loginFails = true ∨ (env.loginFails = false ∧ env.locateFails = true)) :
    (∃ msg, ∀ k ∈ pts, dictLookup (fetchResultDict env fund pts) k = some msg) ∧
      (fetch_multiple_data env fund pts).snd.countP isExtract = 0 := by
  rcases h with hl | ⟨hl, hc⟩
  · constructor
    · refine ⟨"Error during fetch process: " ++ env.loginErr, ?_⟩
      intro k hk
      rw [fetchResultDict_lookup]
      simp [hk, perKindValue, hd, hl]
    · rw [fetch_trace]
      simp [hd, hl, List.countP_cons, isExtract]
  · constructor
    · refine ⟨"Error during fetch process: " ++ env.locateErr, ?_⟩
      intro k hk
      rw [fetchResultDict_lookup]
      simp [hk, perKindValue, hd, hl, hc]
    · rw [fetch_trace]
      simp [hd, hl, hc, List.countP_cons, isExtract]

/-- C4 witness: with login raising, both requested kinds map to one shared
error text and no extraction is invoked. -/
theorem C4_witness :
    (∃ msg, ∀ k ∈ ["mer", "performance"],
        dictLookup (fetchResultDict envLoginFail "Acme Growth Fund"
          ["mer", "performance"]) k = some msg) ∧
      (fetch_multiple_data envLoginFail "Acme Growth Fund"
        ["mer", "performance"]).snd.countP isExtract = 0 :=
  C4_early_failure_uniform envLoginFail "Acme Growth Fund" ["mer", "performance"]
    rfl (Or.inl rfl)

/-- C5: field extractions are mutually independent: with the session steps
succeeding, a kind whose locator times out gets an error text, a kind whose
locator succeeds gets its extracted text, and every requested kind gets a
value determined by the scenario and that kind alone. -/
theorem C5_field_independence (env : Scenario) (fund : String) (pts : List String)
    (k1 k2 : String) (xp1 xp2 : Locator)
    (hd : env.driverFails = false) (hl : env.loginFails = false)
    (hc : env.locateFails = false) (ho : env.overviewFails = false)
    (h1 : k1 ∈ pts) (h2 : k2 ∈ pts)
    (hx1 : dictLookup XPATHS k1 = some xp1) (hx2 : dictLookup XPATHS k2 = some xp2)
    (hf1 : env.extractFails xp1 = true) (hf2 : env.extractFails xp2 = false) :
    dictLookup (fetchResultDict env fund pts) k1 =
        some ("Error fetching " ++ k1 ++ ": " ++ env.extractErr xp1) ∧
      dictLookup (fetchResultDict env fund pts) k2 = some (env.extractVal xp2) ∧
      ∀ k, k ∈ pts →
        dictLookup (fetchResultDict env fund pts) k = some (perKindValue env k) := by
  refine ⟨?_, ?_, ?_⟩
  · rw [fetchResultDict_lookup]
    simp [h1, perKindValue, hd, hl, hc, loopValue, hx1, click_and_extract, ho, hf1]
  · rw [fetchResultDict_lookup]
    simp [h2, perKindValue, hd, hl, hc, loopValue, hx2, click_and_extract, ho, hf2]
  · intro k hk
    rw [fetchResultDict_lookup]
    simp [hk]

/-- C5 witness: cost ratio times out while performance succeeds; the error
is recorded for the first kind only and the second kind keeps its text. -/
theorem C5_witness :
    dictLookup (fetchResultDict envExtractMerFails "Acme Growth Fund"
        ["mer", "performance"]) "mer" =
        some ("Error fetching " ++ "mer" ++ ": " ++
          envExtractMerFails.extractErr Locator.merPair) ∧
      dictLookup (fetchResultDict envExtractMerFails "Acme Growth Fund"
        ["mer", "performance"]) "performance" =
        some (envExtractMerFails.extractVal Locator.perfPair) ∧
      ∀ k, k ∈ ["mer", "performance"] →
        dictLookup (fetchResultDict envExtractMerFails "Acme Growth Fund"
          ["mer", "performance"]) k = some (perKindValue envExtractMerFails k) :=
  C5_field_independence envExtractMerFails "Acme Growth Fund" ["mer", "performance"]
    "mer" "performance" Locator.merPair Locator.perfPair rfl rfl rfl rfl
    (List.mem_cons_self "mer" ["performance"])
    (List.mem_cons_of_mem "mer" (List.mem_cons_self "performance" []))
    rfl rfl rfl rfl

/-- C6: a requested kind with no entry in the XPATHS table gets the KeyError
text for that kind only, while every other requested kind is still recorded
with the value the extraction loop computes for it. -/
theorem C6_unsupported_kind (env : Scenario) (fund : String) (pts : List String)
    (k : String)
    (hd : env.driverFails = false) (hl : env.loginFails = false)
    (hc : env.locateFails = false)
    (hk : k ∈ pts) (hx : dictLookup XPATHS k = none) :
    dictLookup (fetchResultDict env fund pts) k =
        some ("Error fetching " ++ k ++ ": " ++ keyErrorText k) ∧
      ∀ k2, k2 ∈ pts → k2 ≠ k →
        dictLookup (fetchResultDict env fund pts) k2 = some (loopValue env k2) := by
  constructor
  · rw [fetchResultDict_lookup]
    simp [hk, perKindValue, hd, hl, hc, loopValue, hx]
  · intro k2 hk2 _
    rw [fetchResultDict_lookup]
    simp [hk2, perKindValue, hd, hl, hc]

/-- C6 witness: the unregistered kind nav gets its KeyError entry and the
registered kind mer keeps its normal extraction value. -/
theorem C6_witness :
    dictLookup (fetchResultDict envAllOk "Acme Growth Fund" ["mer", "nav"]) "nav" =
        some ("Error fetching " ++ "nav" ++ ": " ++ keyErrorText "nav") ∧
      ∀ k2, k2 ∈ ["mer", "nav"] → k2 ≠ "nav" →
        dictLookup (fetchResultDict envAllOk "Acme Growth Fund" ["mer", "nav"]) k2 =
          some (loopValue envAllOk k2) :=
  C6_unsupported_kind envAllOk "Acme Growth Fund" ["mer", "nav"] "nav" rfl rfl rfl
    (List.mem_cons_of_mem "mer" (List.mem_cons_self "nav" [])) rfl

/-- C7: with the session steps succeeding, the event trace of one call is
exactly acquisition, then authentication, then entity location, then one
extraction event per registered requested kind in caller order, then the
teardown: each phase strictly precedes the next and extractions are
sequential in request order. -/
theorem C7_ordering (env : Scenario) (fund : String) (pts : List String)
    (hd : env.driverFails = false) (hl : env.loginFails = false)
    (hc : env.locateFails = false) :
    (fetch_multiple_data env fund pts).snd =
      Event.acquire :: Event.login :: Event.locate ::
        (extractEvents pts ++ [Event.quit]) := by
  rw [fetch_trace]
  simp [hd, hl, hc]

/-- C7 witness: the concrete trace of a fully successful two-kind call. -/
theorem C7_witness :
    (fetch_multiple_data envAllOk "Acme Growth Fund" ["mer", "performance"]).snd =
      Event.acquire :: Event.login :: Event.locate ::
        (extractEvents ["mer", "performance"] ++ [Event.quit]) :=
  C7_ordering envAllOk "Acme Growth Fund" ["mer", "performance"] rfl rfl rfl

/-- C8: dismiss_popups never fails its caller (the outcome is always ok,
whether or not the script raises), on an overlay-free page it leaves the
page unchanged, and running it twice equals running it once. -/
theorem C8_dismiss_never_fails (scriptFails : Bool) (p : Page) :
    (dismiss_popups scriptFails p).fst = Except.ok () ∧
      (overlayFree p → (dismiss_popups scriptFails p).snd = p) ∧
      dismiss_popups scriptFails (dismiss_popups scriptFails p).snd =
        dismiss_popups scriptFails p := by
  cases scriptFails with
  | true => exact ⟨rfl, fun _ => rfl, rfl⟩
  | false =>
    refine ⟨rfl, fun h => popupScript_overlayFree p h, ?_⟩
    show (Except.ok (), popupScript (popupScript p)) = (Except.ok (), popupScript p)
    rw [popupScript_idem]

/-- C8 witness: on a concrete overlay-free page the call returns normally
and the page is unchanged. -/
theorem C8_witness :
    (dismiss_popups false page0).fst = Except.ok () ∧
      (dismiss_popups false page0).snd = page0 :=
  ⟨(C8_dismiss_never_fails false page0).1,
   (C8_dismiss_never_fails false page0).2.1 ⟨rfl, rfl, rfl, by decide⟩⟩

/-- C9: requested kinds have set semantics: the mapping returned for a list
with duplicates agrees at every key with the mapping returned for the
deduplicated list. -/
theorem C9_duplicates_collapse (env : Scenario) (fund : String) (pts : List String)
    (k : String) :
    dictLookup (fetchResultDict env fund pts.dedup) k =
      dictLookup (fetchResultDict env fund pts) k := by
  rw [fetchResultDict_lookup, fetchResultDict_lookup]
  simp [List.mem_dedup]

/-- C10: the single-field wrapper returns exactly the value the batch call
records under that kind, never raises, and the kind is never absent from
the batch result, so the fallback text is never used. -/
theorem C10_fetch_data_refines (env : Scenario) (fund : String) (k : String) :
    ∃ v, dictLookup (fetchResultDict env fund [k]) k = some v ∧
      fetch_data env fund k = Except.ok v := by
  refine ⟨perKindValue env k, ?_, ?_⟩
  · rw [fetchResultDict_lookup]
    simp
  · unfold fetch_data
    rw [fetch_fst_ok]
    simp [fetchResultDict_lookup]

end Scraper
